import Mathlib

/-!
Verification of the LSP gateway (multi-tenant editor / language-server bridge).

Shallow embedding of the program's core, translated from the source:
  - `src/src/utils/subprocess_utils.py` (`SubprocessManager`: the frame
    decoder `_process_buffer`, `send`, `receive`, `stop`, and the dispatch
    of inbound messages in `_process_buffer` lines 150-160), and
  - `src/src/connection.py` (`ConnectionHandler.handle_message`,
    `send_error`, `cleanup`).

Modelling conventions:
  - Python byte strings are `List Nat` (one `Nat` per byte).
  - Python `json` values are the inductive `Json`; `dict.get(k)` returning
    `None` both for a missing key and for a stored JSON `null` is modelled
    by `Json.pyGet`; `k in dict` by `Json.hasKey`; `d[k]` by `Json.getItem`
    (raising `KeyError`).
  - Exceptions are `Except PyErr` / an `err` field; the concrete exception
    classes that matter to the claims are enumerated in `PyErr`.
  - The awaited outcome of an `asyncio` future inside `receive` is an
    explicit oracle argument (`arrival`): `some m` means the stdout reader
    completed the future with message `m` inside the timeout window,
    `none` means the timeout fired first.
  - Effects visible outside the process (writes to the child's stdin,
    websocket sends, killing the child, removing the workspace) are
    recorded as an ordered `Event` trace.
-/

/-- JSON values as produced by Python `json.loads`. Python dicts preserve
insertion order, hence an association list for objects. -/
inductive Json where
  | null
  | bool (b : Bool)
  | num (n : Int)
  | str (s : String)
  | arr (elems : List Json)
  | obj (fields : List (String × Json))

mutual

def Json.decEq : (a b : Json) → Decidable (a = b)
  | .null, .null => isTrue rfl
  | .bool a, .bool b =>
      match Bool.decEq a b with
      | isTrue h => isTrue (by rw [h])
      | isFalse h => isFalse (fun hh => h (Json.bool.inj hh))
  | .num a, .num b =>
      match Int.decEq a b with
      | isTrue h => isTrue (by rw [h])
      | isFalse h => isFalse (fun hh => h (Json.num.inj hh))
  | .str a, .str b =>
      match String.decEq a b with
      | isTrue h => isTrue (by rw [h])
      | isFalse h => isFalse (fun hh => h (Json.str.inj hh))
  | .arr xs, .arr ys =>
      match Json.decEqList xs ys with
      | isTrue h => isTrue (by rw [h])
      | isFalse h => isFalse (fun hh => h (Json.arr.inj hh))
  | .obj fs, .obj gs =>
      match Json.decEqPairs fs gs with
      | isTrue h => isTrue (by rw [h])
      | isFalse h => isFalse (fun hh => h (Json.obj.inj hh))
  | .null, .bool _ => isFalse (fun h => Json.noConfusion h)
  | .null, .num _ => isFalse (fun h => Json.noConfusion h)
  | .null, .str _ => isFalse (fun h => Json.noConfusion h)
  | .null, .arr _ => isFalse (fun h => Json.noConfusion h)
  | .null, .obj _ => isFalse (fun h => Json.noConfusion h)
  | .bool _, .null => isFalse (fun h => Json.noConfusion h)
  | .bool _, .num _ => isFalse (fun h => Json.noConfusion h)
  | .bool _, .str _ => isFalse (fun h => Json.noConfusion h)
  | .bool _, .arr _ => isFalse (fun h => Json.noConfusion h)
  | .bool _, .obj _ => isFalse (fun h => Json.noConfusion h)
  | .num _, .null => isFalse (fun h => Json.noConfusion h)
  | .num _, .bool _ => isFalse (fun h => Json.noConfusion h)
  | .num _, .str _ => isFalse (fun h => Json.noConfusion h)
  | .num _, .arr _ => isFalse (fun h => Json.noConfusion h)
  | .num _, .obj _ => isFalse (fun h => Json.noConfusion h)
  | .str _, .null => isFalse (fun h => Json.noConfusion h)
  | .str _, .bool _ => isFalse (fun h => Json.noConfusion h)
  | .str _, .num _ => isFalse (fun h => Json.noConfusion h)
  | .str _, .arr _ => isFalse (fun h => Json.noConfusion h)
  | .str _, .obj _ => isFalse (fun h => Json.noConfusion h)
  | .arr _, .null => isFalse (fun h => Json.noConfusion h)
  | .arr _, .bool _ => isFalse (fun h => Json.noConfusion h)
  | .arr _, .num _ => isFalse (fun h => Json.noConfusion h)
  | .arr _, .str _ => isFalse (fun h => Json.noConfusion h)
  | .arr _, .obj _ => isFalse (fun h => Json.noConfusion h)
  | .obj _, .null => isFalse (fun h => Json.noConfusion h)
  | .obj _, .bool _ => isFalse (fun h => Json.noConfusion h)
  | .obj _, .num _ => isFalse (fun h => Json.noConfusion h)
  | .obj _, .str _ => isFalse (fun h => Json.noConfusion h)
  | .obj _, .arr _ => isFalse (fun h => Json.noConfusion h)

def Json.decEqList : (a b : List Json) → Decidable (a = b)
  | [], [] => isTrue rfl
  | [], _ :: _ => isFalse (fun h => List.noConfusion h)
  | _ :: _, [] => isFalse (fun h => List.noConfusion h)
  | x :: xs, y :: ys =>
      match Json.decEq x y with
      | isFalse h => isFalse (fun hh => h (List.cons.inj hh).1)
      | isTrue h1 =>
          match Json.decEqList xs ys with
          | isTrue h2 => isTrue (by rw [h1, h2])
          | isFalse h => isFalse (fun hh => h (List.cons.inj hh).2)

def Json.decEqPairs : (a b : List (String × Json)) → Decidable (a = b)
  | [], [] => isTrue rfl
  | [], _ :: _ => isFalse (fun h => List.noConfusion h)
  | _ :: _, [] => isFalse (fun h => List.noConfusion h)
  | (k1, v1) :: xs, (k2, v2) :: ys =>
      match String.decEq k1 k2 with
      | isFalse h => isFalse (fun hh => h (Prod.mk.inj (List.cons.inj hh).1).1)
      | isTrue hk =>
          match Json.decEq v1 v2 with
          | isFalse h => isFalse (fun hh => h (Prod.mk.inj (List.cons.inj hh).1).2)
          | isTrue hv =>
              match Json.decEqPairs xs ys with
              | isTrue ht => isTrue (by rw [hk, hv, ht])
              | isFalse h => isFalse (fun hh => h (List.cons.inj hh).2)

end

instance : DecidableEq Json := Json.decEq

/-- Exception classes of the source that the claims can observe. -/
inductive PyErr where
  | runtimeError
  | typeError
  | keyError
  | fileNotFound
  | indexError
  | attributeError
deriving DecidableEq

/-- Observable effects, in program order: writes of framed messages to the
child's stdin (`SubprocessManager.send`), registration/removal of a pending
response future (`receive`), websocket sends (`send_text`), process
termination actions in `stop`, and workspace removal in `cleanup`. -/
inductive Event where
  | stdinWrite (msg : Json)
  | registerPending (id : Json)
  | removePending (id : Json)
  | wsSend (msg : Json)
  | procKill
  | procTerminate
  | procWaitNatural
  | procWaitTimeout
  | rmWorkspace
deriving DecidableEq

/-- Field lookup in an object's association list (first binding wins, as in
a Python dict, whose keys are unique anyway). -/
def Json.lookupField : List (String × Json) → String → Option Json
  | [], _ => none
  | (k, v) :: rest, key => if k = key then some v else Json.lookupField rest key

/-- Raw field access: `some v` iff the object has the key (even if its value
is JSON null). Non-objects have no fields. -/
def Json.get : Json → String → Option Json
  | .obj fs, key => Json.lookupField fs key
  | _, _ => none

/-- Python `message.get(k)`: returns `None` both when the key is missing and
when the stored value is JSON null (which `json.loads` maps to `None`). -/
def Json.pyGet (j : Json) (key : String) : Option Json :=
  match j.get key with
  | some .null => none
  | r => r

/-- Python `k in message` (dict key membership). -/
def Json.hasKey (j : Json) (key : String) : Bool :=
  (j.get key).isSome

/-- Python `message[k]`: raises `KeyError` on a missing key, `TypeError`
when subscripting a non-dict. -/
def Json.getItem (j : Json) (key : String) : Except PyErr Json :=
  match j with
  | .obj fs =>
      match Json.lookupField fs key with
      | some v => .ok v
      | none => .error .keyError
  | _ => .error .typeError

/-- Python truthiness of a decoded JSON value (`if response:` etc.). -/
def Json.truthy : Json → Bool
  | .null => false
  | .bool b => b
  | .num n => n ≠ 0
  | .str s => s ≠ ""
  | .arr l => l ≠ []
  | .obj l => l ≠ []

/-- Coerce to a Python `str` operand; anything else raises `TypeError` where
the source would fail on a string operation. -/
def Json.asStr : Json → Except PyErr String
  | .str s => .ok s
  | _ => .error .typeError

/-- Coerce to a Python list for iteration; non-lists raise `TypeError`. -/
def Json.asArr : Json → Except PyErr (List Json)
  | .arr l => .ok l
  | _ => .error .typeError

/-- Coerce a JSON number to a nonnegative integer index. LSP positions are
nonnegative; a non-number raises `TypeError` as the slice would in Python. -/
def Json.asNat : Json → Except PyErr Nat
  | .num n => if n < 0 then .error .typeError else .ok n.toNat
  | _ => .error .typeError

/-- Python slice subscript `v[:200]` as used in the logging f-strings
(`connection.py` lines 98 and 267). Slicing is defined for `str` and
`list`; applying it to a `dict` raises
`TypeError: unhashable type: slice` (and on other non-subscriptables a
`TypeError` as well). -/
def pySliceLog : Json → Except PyErr Unit
  | .str _ => .ok ()
  | .arr _ => .ok ()
  | _ => .error .typeError

/-- Printable tag standing for Python `str(e)` in the handler's
`f"Internal error: ..."` reply (the claims only inspect the error code and
id, not the human-readable text). -/
def pyErrText : PyErr → String
  | .runtimeError => "RuntimeError"
  | .typeError => "TypeError"
  | .keyError => "KeyError"
  | .fileNotFound => "FileNotFoundError"
  | .indexError => "IndexError"
  | .attributeError => "AttributeError"

/- ### Frame codec (decoder): `SubprocessManager._process_buffer`, lines 118-165 -/

/-- Byte values of a string's characters (ASCII for all data in play). -/
def strBytes (s : String) : List Nat :=
  s.toList.map Char.toNat

/-- Decoder state: `self._buffer` (growable byte buffer) and
`self._content_length` (with the source's `-1` sentinel for "no header
parsed yet"). -/
structure DecoderState where
  buffer : List Nat
  content_length : Int
deriving DecidableEq

/-- The header terminator bytes `\r\n\r\n`. -/
def crlfcrlf : List Nat := [13, 10, 13, 10]

/-- Python `bytearray.find(pat)`: index of the first occurrence, `none` for
`-1`. -/
def findSub (pat : List Nat) : List Nat → Option Nat
  | [] => if pat = [] then some 0 else none
  | b :: rest =>
      if pat.isPrefixOf (b :: rest) then some 0
      else (findSub pat rest).map (· + 1)

def isDigitByte (b : Nat) : Bool := 48 ≤ b && b ≤ 57

/-- Decimal value of a digit-byte run. -/
def digitsToNat (l : List Nat) : Nat :=
  l.foldl (fun a b => a * 10 + (b - 48)) 0

/-- The bytes of the literal pattern prefix in
`re.search(r"Content-Length: (\d+)", headers)`. -/
def clPatternBytes : List Nat := strBytes "Content-Length: "

/-- Model of `re.search(r"Content-Length: (\d+)", headers)`: the leftmost
position where the literal prefix is followed by at least one digit wins;
the captured group is the maximal digit run there. -/
def searchContentLength : List Nat → Option Nat
  | [] => none
  | b :: rest =>
      let l := b :: rest
      let tail := l.drop clPatternBytes.length
      if clPatternBytes.isPrefixOf l ∧ (tail.take 1).any isDigitByte then
        some (digitsToNat (tail.takeWhile isDigitByte))
      else
        searchContentLength rest

/-- One `while` loop of `_process_buffer` per unit of fuel; `none` means the
fuel ran out, i.e. the loop had not returned after that many iterations.
Each complete message body that lines 140-149 slice off and `json.loads`
is appended to `emitted` (dispatch of the parsed message is modelled
separately by `dispatch_message`). -/
def process_buffer : Nat → DecoderState → List (List Nat) →
    Option (List (List Nat) × DecoderState)
  | 0, _, _ => none
  | fuel + 1, st, emitted =>
    if st.buffer = [] then some (emitted, st)
    else
      match
        (if st.content_length < 0 then
          match findSub crlfcrlf st.buffer with
          | none => Sum.inl false
          | some headerEnd =>
              let headers := st.buffer.take headerEnd
              let buf1 := st.buffer.drop (headerEnd + 4)
              match searchContentLength headers with
              | some n => Sum.inr (⟨buf1, (n : Int)⟩ : DecoderState)
              | none => Sum.inl true
        else Sum.inr st : Sum Bool DecoderState) with
      | Sum.inl false => some (emitted, st)
      | Sum.inl true => some (emitted, ⟨[], st.content_length⟩)
      | Sum.inr st1 =>
          if (st1.buffer.length : Int) ≥ st1.content_length then
            let n := st1.content_length.toNat
            process_buffer fuel ⟨st1.buffer.drop n, -1⟩
              (emitted ++ [st1.buffer.take n])
          else
            process_buffer fuel st1 emitted

/-- The frame encoder: `SubprocessManager.send` lines 58-59 prepends
`Content-Length: N\r\n\r\n` to the UTF-8 body. -/
def encode_frame (body : List Nat) : List Nat :=
  strBytes ("Content-Length: " ++ toString body.length) ++ crlfcrlf ++ body

/-- A two-byte JSON body (an empty object), so its well-formed frame is 23
bytes long. -/
def c1_body : List Nat := [123, 125]

/-- Feeding the first 22 bytes of the frame leaves the chunk boundary one
byte inside the message body. -/
def c1_feed : List Nat := (encode_frame c1_body).take 22

theorem c1_feed_spelled :
    c1_feed = strBytes "Content-Length: 2" ++ crlfcrlf ++ [123] := by decide

/-- With a partially received body (here one byte of two) the loop guard
stays true, the header branch is skipped (`content_length` is already 2)
and the body branch makes no progress, so no fuel bound suffices. -/
theorem process_buffer_spins (fuel : Nat) :
    process_buffer fuel ⟨[123], 2⟩ [] = none := by
  induction fuel with
  | zero => rfl
  | succ n ih => simpa [process_buffer] using ih

/-- C1: the decoder does not terminate on the feed that ends one byte into
a message body. The first iteration parses the header (terminator at index
17, content length 2) and leaves `[123]` in the buffer; every further
iteration is the spinning state above. -/
theorem c1_decoder_nonterminating (fuel : Nat) :
    process_buffer fuel ⟨c1_feed, -1⟩ [] = none := by
  cases fuel with
  | zero => rfl
  | succ n =>
      have step : process_buffer (n + 1) ⟨c1_feed, -1⟩ [] =
          process_buffer n ⟨[123], 2⟩ [] := rfl
      rw [step]
      exact process_buffer_spins n

/- ### Child process supervisor: `SubprocessManager` -/

/-- Supervisor state: `self._running`, whether `self.process` is non-None,
whether `self.process.returncode is None` (child still alive), and the key
set of `self._response_map` in insertion order. The child's stdin pipe
exists exactly while the process handle does. -/
structure SubprocessManager where
  running : Bool
  processSome : Bool
  processAlive : Bool
  pending : List Json
deriving DecidableEq

/-- Lines 52-67: `send` raises `RuntimeError` unless `_running` and the
process (with its stdin) exist; otherwise it frames the message and writes
it to the child's stdin. -/
def SubprocessManager.send (sup : SubprocessManager) (message : Json) :
    Except PyErr (List Event) :=
  if sup.running = false ∨ sup.processSome = false then
    .error .runtimeError
  else
    .ok [Event.stdinWrite message]

/-- Line 76: `self._response_map[msg_id] = future` — a dict assignment; a
fresh key is appended in insertion order, an existing key keeps its place
(its future is overwritten). -/
def register_pending (sup : SubprocessManager) (i : Json) : SubprocessManager :=
  { sup with pending := if i ∈ sup.pending then sup.pending else sup.pending ++ [i] }

/-- Python `del self._response_map[msg_id]` after the line-86 membership
check. -/
def remove_pending (sup : SubprocessManager) (i : Json) : SubprocessManager :=
  { sup with pending := sup.pending.erase i }

/-- Lines 69-87: `receive` returns `None` without registering anything when
the supervisor is not running or the id is `None`; otherwise it registers
the future under the caller-supplied id, awaits it with the timeout
(`arrival` is the awaited outcome: `some m` for a completion inside the
window, `none` for `asyncio.TimeoutError`), and in the `finally` block
deletes the id from the map if still present. -/
def SubprocessManager.receive (sup : SubprocessManager) (msg_id : Option Json)
    (arrival : Option Json) : Option Json × SubprocessManager × List Event :=
  if sup.running = false ∨ msg_id = none then (none, sup, [])
  else
    match msg_id with
    | none => (none, sup, [])
    | some i =>
        let sup1 := register_pending sup i
        let res := arrival
        if i ∈ sup1.pending then
          (res, remove_pending sup1 i,
            [Event.registerPending i, Event.removePending i])
        else
          (res, sup1, [Event.registerPending i])

/-- Lines 150-160 of `_process_buffer`: route one decoded inbound message.
A message whose `id` is a pending key completes that future; otherwise, if
a notification callback is installed and the message has a `method`, the
callback runs; otherwise the message is logged and dropped. -/
inductive Dispatch where
  | complete (id : Json) (msg : Json)
  | toCallback (msg : Json)
  | dropped (msg : Json)
deriving DecidableEq

def dispatch_message (pending : List Json) (has_callback : Bool)
    (message : Json) : Dispatch :=
  match message.pyGet "id" with
  | some i =>
      if i ∈ pending then .complete i message
      else if has_callback ∧ message.hasKey "method" then .toCallback message
      else .dropped message
  | none =>
      if has_callback ∧ message.hasKey "method" then .toCallback message
      else .dropped message

/-- The fixed shutdown request of `stop` (line 210), id hard-coded to 9999. -/
def stop_shutdown_msg : Json :=
  .obj [("jsonrpc", .str "2.0"), ("id", .num 9999), ("method", .str "shutdown")]

/-- Lines 198-231: `stop`. Returns immediately if already stopped; else sets
`_running` to `False` first, then (if the child has not exited) tries to
send the shutdown request via `send` and wait up to 5 s for a natural
exit, terminating on expiry; any exception lands in the handler that
kills the process outright; the `finally` block nulls the handle.
`exits_in_five` is the oracle for whether the 5-second wait would have
seen a natural exit. -/
def SubprocessManager.stop (sup : SubprocessManager) (exits_in_five : Bool) :
    SubprocessManager × List Event :=
  if sup.running = false ∨ sup.processSome = false then (sup, [])
  else
    let sup1 : SubprocessManager := { sup with running := false }
    if sup1.processAlive then
      match sup1.send stop_shutdown_msg with
      | .ok ev1 =>
          if exits_in_five then
            ({ sup1 with processAlive := false, processSome := false },
              ev1 ++ [Event.procWaitNatural])
          else
            ({ sup1 with processAlive := false, processSome := false },
              ev1 ++ [Event.procWaitTimeout, Event.procTerminate])
      | .error _ =>
          ({ sup1 with processAlive := false, processSome := false },
            [Event.procKill])
    else
      ({ sup1 with processSome := false }, [])

/- ### Session state: `ConnectionHandler` -/

/-- Handler state: `self.initialized`, `self.next_id`, the open-document
set, whether `self.subprocess` is non-None, the workspace path, whether the
workspace directory exists, and the files on disk (absolute path to text
content). -/
structure Gateway where
  initialized : Bool
  next_id : Nat
  open_documents : List String
  subprocessSome : Bool
  workspace_path : String
  workspaceExists : Bool
  fs : List (String × String)
deriving DecidableEq

/-- Result of one handler entry point: the mutated session and supervisor,
the ordered effect trace, and the exception propagating out (if any). -/
structure Step where
  gw : Gateway
  sup : SubprocessManager
  events : List Event
  err : Option PyErr
deriving DecidableEq

/-- Set insertion for `self.open_documents.add(uri)` (appends a fresh
element, keeps an existing one). -/
def setInsert (l : List String) (u : String) : List String :=
  if u ∈ l then l else l ++ [u]

/-- Lookup of a file's content by path. -/
def fsLookup (fs : List (String × String)) (p : String) : Option String :=
  match fs with
  | [] => none
  | (k, v) :: rest => if k = p then some v else fsLookup rest p

/-- Overwrite (or create) the file at a path. `didChange` only ever hits the
overwrite case since `open(file_path, "r+")` requires the file to exist. -/
def fsUpdate (fs : List (String × String)) (p : String) (c : String) :
    List (String × String) :=
  match fs with
  | [] => [(p, c)]
  | (k, v) :: rest => if k = p then (p, c) :: rest else (k, v) :: fsUpdate rest p c

/-- Drop every occurrence of the substring `file://` from a character
list — Python `uri.replace("file://", "")` at `connection.py` line 221
replaces all occurrences. -/
def stripFileScheme : Nat → List Char → List Char
  | 0, l => l
  | _ + 1, [] => []
  | fuel + 1, c :: rest =>
      if "file://".toList.isPrefixOf (c :: rest) then
        stripFileScheme fuel (rest.drop 6)
      else c :: stripFileScheme fuel rest

/-- Filesystem path derived from a document URI (`fileFromUri`). The fuel
equals the character count, which bounds the number of scan steps, each of
which consumes at least one character. -/
def pathOf (uri : String) : String :=
  String.mk (stripFileScheme uri.toList.length uri.toList)

/-- Split a character list at every newline (the texts in play use ASCII
`\n` line endings). -/
def splitNl : List Char → List (List Char)
  | [] => [[]]
  | c :: rest =>
      if c = '\n' then [] :: splitNl rest
      else
        match splitNl rest with
        | [] => [[c]]
        | l :: ls => (c :: l) :: ls

/-- Python `content.splitlines()`: line terminators are dropped, and a
trailing newline does not produce a final empty line. -/
def pySplitlines (s : String) : List String :=
  let cs := s.toList
  if cs = [] then []
  else
    let parts := (splitNl cs).map String.mk
    if cs.getLast? = some '\n' then parts.dropLast else parts

/-- Python `"\n".join(lines)`. -/
def joinNl : List String → String
  | [] => ""
  | [s] => s
  | s :: rest => s ++ "\n" ++ joinNl rest

/-- Lines 226-235: apply one element of `contentChanges` to the current
content. A change with a `range` splices `change["text"]` into the line at
`start["line"]` between the `start` and `end` character columns (the
source reuses the start line for the end column and rejoins with `\n`); a
change without a `range` replaces the whole content. -/
def apply_change (content : String) (change : Json) : Except PyErr String :=
  if change.hasKey "range" then do
    let range ← change.getItem "range"
    let startPos ← range.getItem "start"
    let endPos ← range.getItem "end"
    let sline ← (← startPos.getItem "line").asNat
    let lines := pySplitlines content
    match lines.get? sline with
    | none => .error .indexError
    | some line => do
        let schar ← (← startPos.getItem "character").asNat
        let echar ← (← endPos.getItem "character").asNat
        let text ← (← change.getItem "text").asStr
        let newLine :=
          String.mk (line.toList.take schar ++ text.toList ++ line.toList.drop echar)
        .ok (joinNl (lines.set sline newLine))
  else do
    let text ← (← change.getItem "text").asStr
    .ok text

def apply_changes (content : String) : List Json → Except PyErr String
  | [] => .ok content
  | c :: rest => do
      let c1 ← apply_change content c
      apply_changes c1 rest

/-- The error reply constructed by `send_error` (lines 280-283): a dict with
the given id (`None` serialises to JSON null), code and message. -/
def error_json (msg_id : Option Json) (code : Int) (msg : String) : Json :=
  .obj [("jsonrpc", .str "2.0"), ("id", msg_id.getD .null),
        ("error", .obj [("code", .num code), ("message", .str msg)])]

def send_error (msg_id : Option Json) (code : Int) (msg : String) : Event :=
  .wsSend (error_json msg_id code msg)

/-- The extra notification built at lines 240-244. -/
def watched_files_msg (uri : String) : Json :=
  .obj [("jsonrpc", .str "2.0"), ("method", .str "workspace/didChangeWatchedFiles"),
        ("params", .obj [("changes", .arr [.obj [("uri", .str uri), ("type", .num 2)]])])]

/-- The `exit` notification sent during `cleanup` (line 294). -/
def exit_notification_msg : Json :=
  .obj [("jsonrpc", .str "2.0"), ("method", .str "exit")]

/-- The shutdown request `cleanup` originates at line 288 under the session
counter `self.next_id`. -/
def cleanup_shutdown_msg (sid : Nat) : Json :=
  .obj [("jsonrpc", .str "2.0"), ("id", .num sid), ("method", .str "shutdown")]

/-- Lines 299-301: remove the workspace directory tree if it exists. -/
def rm_workspace (gw : Gateway) (sup : SubprocessManager) (evs : List Event) :
    Step :=
  if gw.workspaceExists then
    ⟨{ gw with
        workspaceExists := false
        fs := gw.fs.filter (fun kv => !(gw.workspace_path.isPrefixOf kv.1)) },
      sup, evs ++ [Event.rmWorkspace], none⟩
  else ⟨gw, sup, evs, none⟩

/-- Lines 285-301: `cleanup`. If the subprocess handle exists and the
session is initialized, originate a `shutdown` request under `next_id`
(incrementing it), await its response for 5 s, send the `exit`
notification, `stop()` the supervisor and null the handle and the flag;
in every case finish by removing the workspace directory. Exceptions from
the sends propagate to the caller. -/
def cleanup (gw : Gateway) (sup : SubprocessManager)
    (shutdown_arrival : Option Json) (exits_in_five : Bool) : Step :=
  if gw.subprocessSome = true ∧ gw.initialized = true then
    let sid := gw.next_id
    let gw1 := { gw with next_id := gw.next_id + 1 }
    match sup.send (cleanup_shutdown_msg sid) with
    | .error e => ⟨gw1, sup, [], some e⟩
    | .ok ev1 =>
        match sup.receive (some (.num sid)) shutdown_arrival with
        | (_, sup1, ev2) =>
            match sup1.send exit_notification_msg with
            | .error e => ⟨gw1, sup1, ev1 ++ ev2, some e⟩
            | .ok ev3 =>
                match sup1.stop exits_in_five with
                | (sup2, ev4) =>
                    let gw2 := { gw1 with subprocessSome := false, initialized := false }
                    rm_workspace gw2 sup2 (ev1 ++ ev2 ++ ev3 ++ ev4)
  else
    rm_workspace gw sup []

/-- Extraction `message["params"]["textDocument"]["uri"]` shared by the
`didOpen`/`didChange`/`didClose` branches (each may raise `KeyError`), plus
the string expectation of the later uses of the uri. -/
def doc_uri (message : Json) : Except PyErr String := do
  let p ← message.getItem "params"
  let td ← p.getItem "textDocument"
  (← td.getItem "uri").asStr

/-- Lines 216-239: the filesystem effect of `didChange`. Reads the uri,
`version` (unused) and `contentChanges`; when the change list is truthy it
opens the derived path with mode `r+` (raising `FileNotFoundError` when
the file does not exist), folds the changes over the content, writes back
and truncates. Returns the updated session and the uri. -/
def didchange_effect (gw : Gateway) (message : Json) :
    Except PyErr (Gateway × String) := do
  let p ← message.getItem "params"
  let td ← p.getItem "textDocument"
  let uri ← (← td.getItem "uri").asStr
  let changes ← p.getItem "contentChanges"
  let file_path := pathOf uri
  if changes.truthy then
    match fsLookup gw.fs file_path with
    | none => .error .fileNotFound
    | some content0 => do
        let cl ← changes.asArr
        let content ← apply_changes content0 cl
        .ok ({ gw with fs := fsUpdate gw.fs file_path content }, uri)
  else
    .ok (gw, uri)

/-- Lines 261-271: forward the client text to the child verbatim and, when
the message carries an id, await the response for 15 s. A truthy response
hits the line-267 logging f-string, which slices the response dict
(`response[:200]`) before `send_text`; a falsy or missing response yields
the `-32603` reply built by `send_error`. `self.subprocess` being `None`
(possible after an in-branch `cleanup`) raises `AttributeError`. -/
def forward_phase (gw : Gateway) (sup : SubprocessManager) (message : Json)
    (arrival : Option Json) : Step :=
  if gw.subprocessSome = false then ⟨gw, sup, [], some .attributeError⟩
  else
    match sup.send message with
    | .error e => ⟨gw, sup, [], some e⟩
    | .ok ev1 =>
        match message.pyGet "id" with
        | none => ⟨gw, sup, ev1, none⟩
        | some i =>
            match sup.receive (some i) arrival with
            | (resp, sup1, ev2) =>
                match resp with
                | some r =>
                    if r.truthy then
                      match pySliceLog r with
                      | .error e => ⟨gw, sup1, ev1 ++ ev2, some e⟩
                      | .ok _ => ⟨gw, sup1, ev1 ++ ev2 ++ [Event.wsSend r], none⟩
                    else
                      ⟨gw, sup1,
                        ev1 ++ ev2 ++
                          [send_error (some i) (-32603) "No response from JDT LS"],
                        none⟩
                | none =>
                    ⟨gw, sup1,
                      ev1 ++ ev2 ++
                        [send_error (some i) (-32603) "No response from JDT LS"],
                      none⟩

/-- Line 254: the `completion` branch only logs, but its f-string reads
`message["params"]["textDocument"]["uri"]` and `message["params"]["position"]`,
each of which can raise `KeyError`. -/
def completion_log_reads (message : Json) : Except PyErr Unit := do
  let p ← message.getItem "params"
  let td ← p.getItem "textDocument"
  let _ ← td.getItem "uri"
  let _ ← p.getItem "position"
  pure ()

/-- Lines 208-271: the method router inside the `try` block, after the
version and initialization guards. Exceptions are reported through the
`err` field and handled by the wrapper `handle_message`. -/
def handle_routed (gw : Gateway) (sup : SubprocessManager) (message : Json)
    (arrival : Option Json) (shutdown_arrival : Option Json)
    (exits_in_five : Bool) : Step :=
  let method := message.pyGet "method"
  match method with
  | some (.str "textDocument/didOpen") =>
      (match doc_uri message with
      | .error e => ⟨gw, sup, [], some e⟩
      | .ok uri =>
          let gw1 := { gw with open_documents := setInsert gw.open_documents uri }
          forward_phase gw1 sup message arrival)
  | some (.str "textDocument/didChange") =>
      (match didchange_effect gw message with
      | .error e => ⟨gw, sup, [], some e⟩
      | .ok (gw1, uri) =>
          match sup.send (watched_files_msg uri) with
          | .error e => ⟨gw1, sup, [], some e⟩
          | .ok ev1 =>
              let s := forward_phase gw1 sup message arrival
              ⟨s.gw, s.sup, ev1 ++ s.events, s.err⟩)
  | some (.str "textDocument/didClose") =>
      (match doc_uri message with
      | .error e => ⟨gw, sup, [], some e⟩
      | .ok uri =>
          let gw1 := { gw with open_documents := gw.open_documents.erase uri }
          if gw1.open_documents = [] then
            let c := cleanup gw1 sup shutdown_arrival exits_in_five
            match c.err with
            | some e => ⟨c.gw, c.sup, c.events, some e⟩
            | none =>
                let s := forward_phase c.gw c.sup message arrival
                ⟨s.gw, s.sup, c.events ++ s.events, s.err⟩
          else forward_phase gw1 sup message arrival)
  | some (.str "textDocument/completion") =>
      (match completion_log_reads message with
      | .error e => ⟨gw, sup, [], some e⟩
      | .ok _ => forward_phase gw sup message arrival)
  | some (.str "exit") =>
      cleanup gw sup shutdown_arrival exits_in_five
  | _ => forward_phase gw sup message arrival

/-- Lines 276-278: the generic `except Exception` handler, which appends a
`-32603` reply carrying `msg_id` and swallows the exception. -/
def answer_internal_error (msg_id : Option Json) (s : Step) : Step :=
  match s with
  | ⟨gw1, sup1, evs, some e⟩ =>
      ⟨gw1, sup1,
        evs ++ [send_error msg_id (-32603) ("Internal error: " ++ pyErrText e)],
        none⟩
  | ok => ok

/-- Lines 196-278: `handle_message`. The version guard replies `-32600`;
the pre-initialization guard replies `-32002` with the message's own id
(null when absent) and forwards nothing; otherwise the router runs and
any exception it raises is answered by the generic handler with a
`-32603` reply carrying `msg_id` (the separate `json.JSONDecodeError`
branch concerns the parse of the inbound text, which happens before this
model is entered). -/
def handle_message (gw : Gateway) (sup : SubprocessManager) (message : Json)
    (arrival : Option Json) (shutdown_arrival : Option Json)
    (exits_in_five : Bool) : Step :=
  if message.pyGet "jsonrpc" ≠ some (.str "2.0") then
    ⟨gw, sup, [send_error none (-32600) "Invalid Request"], none⟩
  else if gw.initialized = false ∧ message.pyGet "method" ≠ some (.str "initialize") then
    ⟨gw, sup,
      [send_error (message.pyGet "id") (-32002) "Server not initialized"], none⟩
  else
    answer_internal_error (message.pyGet "id")
      (handle_routed gw sup message arrival shutdown_arrival exits_in_five)

/- ### Helper lemmas about the supervisor primitives -/

theorem mem_register_pending (sup : SubprocessManager) (i : Json) :
    i ∈ (register_pending sup i).pending := by
  simp only [register_pending]
  split <;> simp [*]

/-- On a running supervisor, `receive` registers the caller-supplied id,
awaits the oracle outcome, and removes the id again in its `finally`
block. -/
theorem receive_run (sup : SubprocessManager) (i : Json) (a : Option Json)
    (h : sup.running = true) :
    sup.receive (some i) a =
      (a, remove_pending (register_pending sup i) i,
        [Event.registerPending i, Event.removePending i]) := by
  simp [SubprocessManager.receive, h, mem_register_pending]

/-- Registering a fresh id and deleting it in the `finally` block restores
the original pending map. -/
theorem receive_restores (sup : SubprocessManager) (i : Json)
    (h : i ∉ sup.pending) :
    remove_pending (register_pending sup i) i = sup := by
  simp [remove_pending, register_pending, h, List.erase_append_right _ h]

/- ### C7: `stop` -/

/-- C7: "stop() on a running supervisor sets running to false and then
terminates gracefully: it sends the LSP shutdown request to the child,
waits up to 5 seconds for natural exit, force-kills only if the wait
expires, and nulls out the process handle afterwards." What the code
actually does: `_running` is cleared first, so the `send` on line 211
raises `RuntimeError` (its line 54 guard) before anything reaches the
child; the exception handler kills the process at once. The shutdown
request is never written, the 5-second graceful wait never happens, and
the kill occurs regardless of whether the child would have exited in
time (the conclusion does not depend on `b`). Only the claim's "sets
running to false" and "nulls out the process handle" parts survive. -/
theorem c7_stop_kills_without_graceful_shutdown (sup : SubprocessManager)
    (b : Bool) (h1 : sup.running = true) (h2 : sup.processSome = true)
    (h3 : sup.processAlive = true) :
    sup.stop b =
      ({ sup with running := false, processAlive := false, processSome := false },
        [Event.procKill]) := by
  simp [SubprocessManager.stop, SubprocessManager.send, h1, h2, h3]

theorem c7_stop_kills_without_graceful_shutdown_witness :
    SubprocessManager.stop ⟨true, true, true, []⟩ true =
      (⟨false, false, false, []⟩, [Event.procKill]) :=
  c7_stop_kills_without_graceful_shutdown ⟨true, true, true, []⟩ true rfl rfl rfl

/- ### C9: `cleanup` idempotence -/

/-- Iterated `cleanup` threading the session and supervisor state. -/
def cleanup_iter : Nat → Gateway → SubprocessManager → Option Json → Bool →
    Gateway × SubprocessManager
  | 0, gw, sup, _, _ => (gw, sup)
  | k + 1, gw, sup, sa, e =>
      let s := cleanup gw sup sa e
      cleanup_iter k s.gw s.sup sa e

/-- A session whose subprocess handle is gone and whose workspace is gone
is a fixed point of `cleanup`, with no events and no exception. -/
theorem cleanup_fixed (gw : Gateway) (sup : SubprocessManager)
    (sa : Option Json) (e : Bool)
    (h1 : gw.subprocessSome = false) (h2 : gw.workspaceExists = false) :
    cleanup gw sup sa e = ⟨gw, sup, [], none⟩ := by
  simp [cleanup, rm_workspace, h1, h2]

theorem cleanup_iter_fixed (k : Nat) (gw : Gateway) (sup : SubprocessManager)
    (sa : Option Json) (e : Bool)
    (h1 : gw.subprocessSome = false) (h2 : gw.workspaceExists = false) :
    cleanup_iter k gw sup sa e = (gw, sup) := by
  induction k with
  | zero => rfl
  | succ n ih => simp [cleanup_iter, cleanup_fixed gw sup sa e h1 h2, ih]

/-- C9: `cleanup()` on a live initialized session raises nothing, removes
the workspace, nulls the subprocess handle and flag, stops the child; a
second (and any later) call is a no-op with an empty effect trace and no
error, so `k ≥ 1` calls end in the same state as one call. -/
theorem c9_cleanup_idempotent (gw : Gateway) (sup : SubprocessManager)
    (sa : Option Json) (e : Bool)
    (h1 : gw.subprocessSome = true) (h2 : gw.initialized = true)
    (h3 : sup.running = true) (h4 : sup.processSome = true) :
    (cleanup gw sup sa e).err = none ∧
    (cleanup gw sup sa e).gw.workspaceExists = false ∧
    (cleanup gw sup sa e).gw.subprocessSome = false ∧
    (cleanup gw sup sa e).gw.initialized = false ∧
    (cleanup gw sup sa e).sup.processSome = false ∧
    (cleanup gw sup sa e).sup.running = false ∧
    (∀ sa2 e2, cleanup (cleanup gw sup sa e).gw (cleanup gw sup sa e).sup sa2 e2 =
      ⟨(cleanup gw sup sa e).gw, (cleanup gw sup sa e).sup, [], none⟩) ∧
    (∀ k, cleanup_iter (k + 1) gw sup sa e =
      ((cleanup gw sup sa e).gw, (cleanup gw sup sa e).sup)) := by
  have hrecv := receive_run sup (Json.num gw.next_id) sa h3
  have hfields : (cleanup gw sup sa e).err = none ∧
      (cleanup gw sup sa e).gw.workspaceExists = false ∧
      (cleanup gw sup sa e).gw.subprocessSome = false ∧
      (cleanup gw sup sa e).gw.initialized = false ∧
      (cleanup gw sup sa e).sup.processSome = false ∧
      (cleanup gw sup sa e).sup.running = false := by
    simp only [cleanup, h1, h2, and_self, if_true, SubprocessManager.send, h3, h4,
      remove_pending, register_pending, hrecv, SubprocessManager.stop, rm_workspace]
    simp only [Bool.true_eq_false, or_self, if_false, reduceIte]
    split <;> split <;> simp_all
  obtain ⟨he, hw, hs, hi, hps, hr⟩ := hfields
  refine ⟨he, hw, hs, hi, hps, hr, ?_, ?_⟩
  · intro sa2 e2
    exact cleanup_fixed _ _ _ _ hs hw
  · intro k
    simp [cleanup_iter, cleanup_iter_fixed k _ _ sa e hs hw]

theorem c9_cleanup_idempotent_witness :
    (cleanup ⟨true, 2, [], true, "/workspaces/abc", true, []⟩ ⟨true, true, true, []⟩
        none true).gw.workspaceExists = false ∧
    (∀ k, cleanup_iter (k + 1)
        ⟨true, 2, [], true, "/workspaces/abc", true, []⟩ ⟨true, true, true, []⟩
        none true =
      ((cleanup ⟨true, 2, [], true, "/workspaces/abc", true, []⟩ ⟨true, true, true, []⟩
          none true).gw,
        (cleanup ⟨true, 2, [], true, "/workspaces/abc", true, []⟩ ⟨true, true, true, []⟩
          none true).sup)) := by
  have h := c9_cleanup_idempotent ⟨true, 2, [], true, "/workspaces/abc", true, []⟩
    ⟨true, true, true, []⟩ none true rfl rfl rfl rfl
  exact ⟨h.2.1, h.2.2.2.2.2.2.2⟩

/- ### Concrete session fixtures -/

/-- A forwarded client request: `textDocument/completion` with the given id
(the shape of spec scenario S1/S4 traffic). -/
def completion_request (i : Int) : Json :=
  .obj [("jsonrpc", .str "2.0"), ("id", .num i),
        ("method", .str "textDocument/completion"),
        ("params", .obj [
          ("textDocument", .obj [("uri", .str "file:///workspaces/abc/src/Main.java")]),
          ("position", .obj [("line", .num 0), ("character", .num 0)])])]

/-- A server response matching request id 9. -/
def server_response_9 : Json :=
  .obj [("jsonrpc", .str "2.0"), ("id", .num 9), ("result", .arr [])]

/-- A live initialized session for interview `abc` with the scaffolded main
file on disk and open. -/
def gw_live : Gateway :=
  ⟨true, 2, ["file:///workspaces/abc/src/Main.java"], true, "/workspaces/abc", true,
   [("/workspaces/abc/src/Main.java", "public class Main")]⟩

/-- A running supervisor with a live child and no pending ids. -/
def sup_live : SubprocessManager := ⟨true, true, true, []⟩

def didOpenMsg (uri text : String) : Json :=
  .obj [("jsonrpc", .str "2.0"), ("method", .str "textDocument/didOpen"),
        ("params", .obj [("textDocument", .obj [
          ("uri", .str uri), ("languageId", .str "java"),
          ("version", .num 1), ("text", .str text)])])]

/-- A `didChange` whose `contentChanges` is a single full-document
replacement (no `range`). -/
def didChangeFull (uri text : String) : Json :=
  .obj [("jsonrpc", .str "2.0"), ("method", .str "textDocument/didChange"),
        ("params", .obj [
          ("textDocument", .obj [("uri", .str uri), ("version", .num 2)]),
          ("contentChanges", .arr [.obj [("text", .str text)]])])]

def didCloseMsg (uri : String) : Json :=
  .obj [("jsonrpc", .str "2.0"), ("method", .str "textDocument/didClose"),
        ("params", .obj [("textDocument", .obj [("uri", .str uri)])])]

/- ### C2: registration versus stdin write ordering -/

/-- C2: the claim says the completion handle is registered in the pending
map before the framed bytes reach the child's stdin. The traces refute
this on both cited paths: for a forwarded client request,
`handle_message` line 262 performs `subprocess.send` and only then line
265 enters `receive`, whose line 76 registers the future; `cleanup`
(line 290 send, line 291 receive) orders its gateway-originated shutdown
request the same way. In both event traces the `stdinWrite` strictly
precedes the `registerPending` for the awaited id. -/
theorem c2_stdin_write_precedes_registration :
    (handle_message gw_live sup_live (completion_request 9)
        (some server_response_9) none true).events =
      [Event.stdinWrite (completion_request 9),
       Event.registerPending (.num 9), Event.removePending (.num 9),
       send_error (some (.num 9)) (-32603) "Internal error: TypeError"] ∧
    (cleanup gw_live sup_live none true).events.take 2 =
      [Event.stdinWrite (cleanup_shutdown_msg 2),
       Event.registerPending (.num 2)] := by
  exact ⟨rfl, rfl⟩

/- ### C3: relay of a matched in-window response -/

/-- C3: the claim says that when the server's response with the matching id
arrives inside the 15-second window, the gateway relays it to the client.
The dispatch in `_process_buffer` does complete the registered future
with the response (first conjunct), but the response branch of
`handle_message` evaluates `response[:200]` inside the line-267 logging
f-string; slicing the response dict raises `TypeError`, the generic
`except` replies `-32603`, and the client never receives the server's
response (`send_text` on line 268, which is anyway passed a dict rather
than a string, is never reached). -/
theorem c3_matched_response_not_relayed :
    dispatch_message [Json.num 9] true server_response_9 =
      .complete (.num 9) server_response_9 ∧
    (handle_message gw_live sup_live (completion_request 9)
        (some server_response_9) none true).events =
      [Event.stdinWrite (completion_request 9),
       Event.registerPending (.num 9), Event.removePending (.num 9),
       send_error (some (.num 9)) (-32603) "Internal error: TypeError"] ∧
    Event.wsSend server_response_9 ∉
      (handle_message gw_live sup_live (completion_request 9)
        (some server_response_9) none true).events := by
  refine ⟨rfl, rfl, ?_⟩
  decide

/- ### C8: pre-initialization rejection -/

/-- C8: while `initialized` is false, any well-formed message whose method
is not `initialize` is answered with a `-32002` error carrying the
message's own id (`send_error` serialises a missing id as JSON null), the
state is untouched, and nothing is forwarded to the language server. -/
theorem c8_preinit_rejected (gw : Gateway) (sup : SubprocessManager)
    (message : Json) (a sa : Option Json) (e : Bool)
    (h0 : gw.initialized = false)
    (h1 : message.pyGet "jsonrpc" = some (.str "2.0"))
    (h2 : message.pyGet "method" ≠ some (.str "initialize")) :
    handle_message gw sup message a sa e =
      ⟨gw, sup, [send_error (message.pyGet "id") (-32002) "Server not initialized"],
        none⟩ ∧
    ∀ j, Event.stdinWrite j ∉ (handle_message gw sup message a sa e).events := by
  have hmain : handle_message gw sup message a sa e =
      ⟨gw, sup, [send_error (message.pyGet "id") (-32002) "Server not initialized"],
        none⟩ := by
    simp [handle_message, h0, h1, h2]
  refine ⟨hmain, fun j => ?_⟩
  rw [hmain]
  simp [send_error]

/-- A freshly connected, not yet initialized session. -/
def gw_uninit : Gateway := ⟨false, 1, [], true, "/workspaces/abc", true, []⟩

/-- Spec scenario S2: `textDocument/completion` with id 7 before
initialization. -/
theorem c8_preinit_rejected_witness :
    handle_message gw_uninit sup_live (completion_request 7) none none true =
      ⟨gw_uninit, sup_live,
        [send_error ((completion_request 7).pyGet "id") (-32002)
          "Server not initialized"], none⟩ ∧
    ∀ j, Event.stdinWrite j ∉
      (handle_message gw_uninit sup_live (completion_request 7) none none true).events :=
  c8_preinit_rejected gw_uninit sup_live (completion_request 7) none none true
    rfl rfl (by decide)

/- ### C4: forward timeout -/

/-- C4: a forwarded client request with an id whose response never arrives
inside the 15-second window (`arrival = none`) is answered with a
`-32603` error carrying the original id; the registration made for the id
is removed again (the supervisor is returned exactly to its previous
state, so no other pending id is touched), the session state is
unchanged, and no exception escapes, so the session keeps running. The
first conjunct covers every method outside the specially routed ones
(which have extra effects of their own); the second covers
`textDocument/completion`, whose branch also reads the request params for
logging before the identical forward-and-await path. -/
theorem c4_timeout_yields_internal_error :
    (∀ (gw : Gateway) (sup : SubprocessManager) (message : Json) (m : String)
      (i : Json) (sa : Option Json) (e : Bool),
      gw.initialized = true → gw.subprocessSome = true →
      sup.running = true → sup.processSome = true →
      message.pyGet "jsonrpc" = some (.str "2.0") →
      message.pyGet "method" = some (.str m) →
      m ≠ "textDocument/didOpen" → m ≠ "textDocument/didChange" →
      m ≠ "textDocument/didClose" → m ≠ "textDocument/completion" →
      m ≠ "exit" →
      message.pyGet "id" = some i → i ∉ sup.pending →
      handle_message gw sup message none sa e =
        ⟨gw, sup, [Event.stdinWrite message, Event.registerPending i,
          Event.removePending i,
          send_error (some i) (-32603) "No response from JDT LS"], none⟩) ∧
    (∀ (gw : Gateway) (sup : SubprocessManager) (message : Json) (i : Json)
      (sa : Option Json) (e : Bool),
      gw.initialized = true → gw.subprocessSome = true →
      sup.running = true → sup.processSome = true →
      message.pyGet "jsonrpc" = some (.str "2.0") →
      message.pyGet "method" = some (.str "textDocument/completion") →
      completion_log_reads message = .ok () →
      message.pyGet "id" = some i → i ∉ sup.pending →
      handle_message gw sup message none sa e =
        ⟨gw, sup, [Event.stdinWrite message, Event.registerPending i,
          Event.removePending i,
          send_error (some i) (-32603) "No response from JDT LS"], none⟩) := by
  constructor
  · intro gw sup message m i sa e hinit hsub hrun hproc hrpc hmeth hm1 hm2 hm3
      hm4 hm5 hid hfresh
    have hfwd : forward_phase gw sup message none =
        ⟨gw, sup, [Event.stdinWrite message, Event.registerPending i,
          Event.removePending i,
          send_error (some i) (-32603) "No response from JDT LS"], none⟩ := by
      simp [forward_phase, hsub, SubprocessManager.send, hrun, hproc, hid,
        receive_run sup i none hrun, receive_restores sup i hfresh]
    have hrouted : handle_routed gw sup message none sa e =
        ⟨gw, sup, [Event.stdinWrite message, Event.registerPending i,
          Event.removePending i,
          send_error (some i) (-32603) "No response from JDT LS"], none⟩ := by
      simp only [handle_routed, hmeth]
      split
      · simp_all
      · simp_all
      · simp_all
      · simp_all
      · simp_all
      · exact hfwd
    simp [handle_message, hrpc, hinit, hrouted, answer_internal_error]
  · intro gw sup message i sa e hinit hsub hrun hproc hrpc hmeth hpar hid hfresh
    have hfwd : forward_phase gw sup message none =
        ⟨gw, sup, [Event.stdinWrite message, Event.registerPending i,
          Event.removePending i,
          send_error (some i) (-32603) "No response from JDT LS"], none⟩ := by
      simp [forward_phase, hsub, SubprocessManager.send, hrun, hproc, hid,
        receive_run sup i none hrun, receive_restores sup i hfresh]
    have hrouted : handle_routed gw sup message none sa e =
        ⟨gw, sup, [Event.stdinWrite message, Event.registerPending i,
          Event.removePending i,
          send_error (some i) (-32603) "No response from JDT LS"], none⟩ := by
      simp only [handle_routed, hmeth, hpar]
      exact hfwd
    simp [handle_message, hrpc, hinit, hrouted, answer_internal_error]

/-- A forwarded request outside the specially routed methods. -/
def hover_request : Json :=
  .obj [("jsonrpc", .str "2.0"), ("id", .num 4),
        ("method", .str "textDocument/hover"),
        ("params", .obj [
          ("textDocument", .obj [("uri", .str "file:///workspaces/abc/src/Main.java")]),
          ("position", .obj [("line", .num 0), ("character", .num 0)])])]

theorem c4_timeout_yields_internal_error_witness :
    handle_message gw_live sup_live hover_request none none true =
      ⟨gw_live, sup_live, [Event.stdinWrite hover_request,
        Event.registerPending (.num 4), Event.removePending (.num 4),
        send_error (some (.num 4)) (-32603) "No response from JDT LS"], none⟩ ∧
    handle_message gw_live sup_live (completion_request 9) none none true =
      ⟨gw_live, sup_live, [Event.stdinWrite (completion_request 9),
        Event.registerPending (.num 9), Event.removePending (.num 9),
        send_error (some (.num 9)) (-32603) "No response from JDT LS"], none⟩ :=
  ⟨c4_timeout_yields_internal_error.1 gw_live sup_live hover_request
      "textDocument/hover" (.num 4) none true rfl rfl rfl rfl rfl rfl
      (by decide) (by decide) (by decide) (by decide) (by decide) rfl (by decide),
   c4_timeout_yields_internal_error.2 gw_live sup_live (completion_request 9)
      (.num 9) none true rfl rfl rfl rfl rfl rfl rfl rfl (by decide)⟩

/- ### C10: the extra `didChangeWatchedFiles` notification -/

/-- An initialized session whose workspace holds no files at all. -/
def gw_nofile : Gateway := ⟨true, 2, [], true, "/workspaces/abc", true, []⟩

/-- A `didChange` with an arbitrary `contentChanges` list. -/
def didChangeMsg (uri : String) (changes : List Json) : Json :=
  .obj [("jsonrpc", .str "2.0"), ("method", .str "textDocument/didChange"),
        ("params", .obj [
          ("textDocument", .obj [("uri", .str uri), ("version", .num 2)]),
          ("contentChanges", .arr changes)])]

/-- An incremental change whose start line (5) is out of range for a
one-line file: lines 229-230 index `lines[start["line"]]`, raising
`IndexError`. -/
def bad_range_change : Json :=
  .obj [("range", .obj [
          ("start", .obj [("line", .num 5), ("character", .num 0)]),
          ("end", .obj [("line", .num 5), ("character", .num 0)])]),
        ("text", .str "x")]

/-- An incremental change replacing columns 7-12 of line 0. -/
def range_change : Json :=
  .obj [("range", .obj [
          ("start", .obj [("line", .num 0), ("character", .num 7)]),
          ("end", .obj [("line", .num 0), ("character", .num 12)])]),
        ("text", .str "struct")]

/-- C10 counterexample: two post-initialization `didChange` messages with
non-empty `contentChanges` after which the language server receives zero
messages rather than the claimed two. First, a full replacement for a URI
whose derived file does not exist: `open(file_path, "r+")` on line 223
raises `FileNotFoundError` before anything is sent. Second, a range edit
on an URI whose file does exist but whose start line is out of range:
line 230 raises `IndexError`, again before either send. In both cases
the generic handler replies `-32603` to the client and nothing reaches
the server. -/
theorem c10_counterexample_zero_messages :
    (handle_message gw_nofile sup_live
        (didChangeFull "file:///workspaces/abc/src/Main.java" "x")
        none none true).events =
      [send_error none (-32603) "Internal error: FileNotFoundError"] ∧
    (handle_message gw_live sup_live
        (didChangeMsg "file:///workspaces/abc/src/Main.java" [bad_range_change])
        none none true).events =
      [send_error none (-32603) "Internal error: IndexError"] ∧
    (∀ j, Event.stdinWrite j ∉
      (handle_message gw_nofile sup_live
        (didChangeFull "file:///workspaces/abc/src/Main.java" "x")
        none none true).events) ∧
    (∀ j, Event.stdinWrite j ∉
      (handle_message gw_live sup_live
        (didChangeMsg "file:///workspaces/abc/src/Main.java" [bad_range_change])
        none none true).events) := by
  have h1 : (handle_message gw_nofile sup_live
      (didChangeFull "file:///workspaces/abc/src/Main.java" "x")
      none none true).events =
      [send_error none (-32603) "Internal error: FileNotFoundError"] := rfl
  have h2 : (handle_message gw_live sup_live
      (didChangeMsg "file:///workspaces/abc/src/Main.java" [bad_range_change])
      none none true).events =
      [send_error none (-32603) "Internal error: IndexError"] := rfl
  refine ⟨h1, h2, fun j => ?_, fun j => ?_⟩
  · rw [h1]; simp [send_error]
  · rw [h2]; simp [send_error]

/-- C10 as amended: for every post-initialization `didChange` whose
`contentChanges` list is non-empty, whose target file exists at the
derived path, and whose change list (full replacements or range edits
alike) applies to the file content without raising, the gateway sends
the `workspace/didChangeWatchedFiles` notification (type 2, same URI)
first and the client's original `didChange` second — two messages per
such edit — while rewriting the file to the applied content. When the
file is missing or the application raises, the exception fires before
either send (see the counterexample). The notification is a `didChange`
side effect regardless of the change list's emptiness; the non-empty
case is the one the claim speaks about. -/
theorem c10_watched_files_sent_before_forward (gw : Gateway)
    (sup : SubprocessManager) (uri : String) (changes : List Json)
    (c0 newContent : String) (sa : Option Json) (e : Bool)
    (hinit : gw.initialized = true) (hsub : gw.subprocessSome = true)
    (hrun : sup.running = true) (hproc : sup.processSome = true)
    (hne : changes ≠ [])
    (hfile : fsLookup gw.fs (pathOf uri) = some c0)
    (happ : apply_changes c0 changes = .ok newContent) :
    handle_message gw sup (didChangeMsg uri changes) none sa e =
      ⟨{ gw with fs := fsUpdate gw.fs (pathOf uri) newContent }, sup,
        [Event.stdinWrite (watched_files_msg uri),
         Event.stdinWrite (didChangeMsg uri changes)], none⟩ := by
  have heff : didchange_effect gw (didChangeMsg uri changes) =
      .ok ({ gw with fs := fsUpdate gw.fs (pathOf uri) newContent }, uri) := by
    unfold didchange_effect
    simp only [didChangeMsg, bind, Except.bind]
    simp [Json.getItem, Json.lookupField, Json.asStr, Json.asArr, Json.truthy,
      hne, hfile, happ]
  have hm : (didChangeMsg uri changes).pyGet "method" =
      some (.str "textDocument/didChange") := rfl
  have hj : (didChangeMsg uri changes).pyGet "jsonrpc" = some (.str "2.0") := rfl
  have hid : (didChangeMsg uri changes).pyGet "id" = none := rfl
  have hfwd : forward_phase { gw with fs := fsUpdate gw.fs (pathOf uri) newContent }
      sup (didChangeMsg uri changes) none =
      ⟨{ gw with fs := fsUpdate gw.fs (pathOf uri) newContent }, sup,
        [Event.stdinWrite (didChangeMsg uri changes)], none⟩ := by
    simp [forward_phase, hsub, SubprocessManager.send, hrun, hproc, hid]
  have hguard : ¬(gw.initialized = false ∧
      (didChangeMsg uri changes).pyGet "method" ≠ some (.str "initialize")) := by
    simp [hinit]
  simp only [handle_message, hj, handle_routed, hm, heff, SubprocessManager.send,
    hrun, hproc, hguard, ne_eq, reduceIte, not_true_eq_false, if_false]
  simp only [hfwd]
  simp [answer_internal_error]
  exact hinit

/-- The witness exercises a range edit: replacing columns 7-12 of
`public class Main` with `struct` succeeds and yields the two sends in
order. -/
theorem c10_watched_files_sent_before_forward_witness :
    handle_message gw_live sup_live
        (didChangeMsg "file:///workspaces/abc/src/Main.java" [range_change])
        none none true =
      ⟨{ gw_live with
          fs := fsUpdate gw_live.fs (pathOf "file:///workspaces/abc/src/Main.java")
            "public struct Main" }, sup_live,
        [Event.stdinWrite (watched_files_msg "file:///workspaces/abc/src/Main.java"),
         Event.stdinWrite
           (didChangeMsg "file:///workspaces/abc/src/Main.java" [range_change])],
        none⟩ :=
  c10_watched_files_sent_before_forward gw_live sup_live
    "file:///workspaces/abc/src/Main.java" [range_change]
    "public class Main" "public struct Main" none true
    rfl rfl rfl rfl (by decide) rfl rfl

/- ### C5: the open-document/file invariant -/


theorem forward_phase_gw (gw : Gateway) (sup : SubprocessManager) (m : Json)
    (a : Option Json) : (forward_phase gw sup m a).gw = gw := by
  simp only [forward_phase]
  repeat' split
  all_goals rfl

theorem answer_gw (mid : Option Json) (s : Step) :
    (answer_internal_error mid s).gw = s.gw := by
  rcases s with ⟨g, su, ev, err⟩
  cases err <;> rfl

theorem cleanup_gw_open (gw : Gateway) (sup : SubprocessManager)
    (sa : Option Json) (e : Bool) :
    (cleanup gw sup sa e).gw.open_documents = gw.open_documents := by
  simp only [cleanup, rm_workspace]
  repeat' split
  all_goals rfl

theorem didopen_routed_gw (gw : Gateway) (sup : SubprocessManager)
    (uri text : String) (a sa : Option Json) (e : Bool) :
    (handle_routed gw sup (didOpenMsg uri text) a sa e).gw =
      { gw with open_documents := setInsert gw.open_documents uri } := by
  have hm : (didOpenMsg uri text).pyGet "method" =
      some (.str "textDocument/didOpen") := rfl
  have hu : doc_uri (didOpenMsg uri text) = .ok uri := rfl
  simp only [handle_routed, hm, hu]
  exact forward_phase_gw _ _ _ _

theorem didopen_message_gw (gw : Gateway) (sup : SubprocessManager)
    (uri text : String) (a sa : Option Json) (e : Bool)
    (hinit : gw.initialized = true) :
    (handle_message gw sup (didOpenMsg uri text) a sa e).gw =
      { gw with open_documents := setInsert gw.open_documents uri } := by
  have hj : (didOpenMsg uri text).pyGet "jsonrpc" = some (.str "2.0") := rfl
  have hguard : ¬(gw.initialized = false ∧
      (didOpenMsg uri text).pyGet "method" ≠ some (.str "initialize")) := by
    simp [hinit]
  simp only [handle_message, hj, hguard, ne_eq, reduceIte, not_true_eq_false,
    if_false, answer_gw, didopen_routed_gw]

theorem didchange_effect_eq (gw : Gateway) (uri text : String) :
    didchange_effect gw (didChangeFull uri text) =
      match fsLookup gw.fs (pathOf uri) with
      | none => .error .fileNotFound
      | some _ => .ok ({ gw with fs := fsUpdate gw.fs (pathOf uri) text }, uri) := by
  rcases hl : fsLookup gw.fs (pathOf uri) with _ | c0 <;>
  · unfold didchange_effect
    simp only [didChangeFull, Json.getItem, Json.lookupField, Json.asStr,
      Json.asArr, Json.truthy, Json.hasKey, Json.get, bind, Except.bind,
      apply_changes, apply_change, hl, String.decEq]
    simp [hl, apply_changes, apply_change, Json.hasKey, Json.get,
      Json.lookupField, Json.getItem, Json.asStr]
    try rfl

theorem didchange_routed_gw (gw : Gateway) (sup : SubprocessManager)
    (uri text : String) (a sa : Option Json) (e : Bool) :
    (handle_routed gw sup (didChangeFull uri text) a sa e).gw =
      match fsLookup gw.fs (pathOf uri) with
      | none => gw
      | some _ => { gw with fs := fsUpdate gw.fs (pathOf uri) text } := by
  have hm : (didChangeFull uri text).pyGet "method" =
      some (.str "textDocument/didChange") := rfl
  simp only [handle_routed, hm, didchange_effect_eq]
  rcases hl : fsLookup gw.fs (pathOf uri) with _ | c0
  · rfl
  · simp only []
    split
    · rfl
    · simp [forward_phase_gw]

theorem didchange_message_gw (gw : Gateway) (sup : SubprocessManager)
    (uri text : String) (a sa : Option Json) (e : Bool)
    (hinit : gw.initialized = true) :
    (handle_message gw sup (didChangeFull uri text) a sa e).gw =
      match fsLookup gw.fs (pathOf uri) with
      | none => gw
      | some _ => { gw with fs := fsUpdate gw.fs (pathOf uri) text } := by
  have hj : (didChangeFull uri text).pyGet "jsonrpc" = some (.str "2.0") := rfl
  have hguard : ¬(gw.initialized = false ∧
      (didChangeFull uri text).pyGet "method" ≠ some (.str "initialize")) := by
    simp [hinit]
  simp only [handle_message, hj, hguard, ne_eq, reduceIte, not_true_eq_false,
    if_false, answer_gw, didchange_routed_gw]

theorem didclose_routed_open (gw : Gateway) (sup : SubprocessManager)
    (uri : String) (a sa : Option Json) (e : Bool) :
    (handle_routed gw sup (didCloseMsg uri) a sa e).gw.open_documents =
      gw.open_documents.erase uri ∧
    (gw.open_documents.erase uri ≠ [] →
      (handle_routed gw sup (didCloseMsg uri) a sa e).gw =
        { gw with open_documents := gw.open_documents.erase uri }) := by
  have hm : (didCloseMsg uri).pyGet "method" =
      some (.str "textDocument/didClose") := rfl
  have hu : doc_uri (didCloseMsg uri) = .ok uri := rfl
  simp only [handle_routed, hm, hu]
  by_cases hempty : gw.open_documents.erase uri = []
  · constructor
    · simp only [hempty, reduceIte]
      split
      · simp [cleanup_gw_open, hempty]
      · simp [forward_phase_gw, cleanup_gw_open, hempty]
    · intro hne
      exact absurd hempty hne
  · constructor
    · simp only [hempty, reduceIte, if_false]
      simp [forward_phase_gw, hempty]
    · intro _
      simp [forward_phase_gw, hempty]

theorem didclose_message_open (gw : Gateway) (sup : SubprocessManager)
    (uri : String) (a sa : Option Json) (e : Bool)
    (hinit : gw.initialized = true) :
    (handle_message gw sup (didCloseMsg uri) a sa e).gw.open_documents =
      gw.open_documents.erase uri ∧
    (gw.open_documents.erase uri ≠ [] →
      (handle_message gw sup (didCloseMsg uri) a sa e).gw =
        { gw with open_documents := gw.open_documents.erase uri }) := by
  have hj : (didCloseMsg uri).pyGet "jsonrpc" = some (.str "2.0") := rfl
  have hguard : ¬(gw.initialized = false ∧
      (didCloseMsg uri).pyGet "method" ≠ some (.str "initialize")) := by
    simp [hinit]
  simp only [handle_message, hj, hguard, ne_eq, reduceIte, not_true_eq_false,
    if_false, answer_gw]
  exact didclose_routed_open gw sup uri a sa e

theorem fsLookup_fsUpdate (fs : List (String × String)) (p c q : String) :
    fsLookup (fsUpdate fs p c) q = if q = p then some c else fsLookup fs q := by
  induction fs with
  | nil =>
      by_cases h : q = p
      · subst h; simp [fsUpdate, fsLookup]
      · simp [fsUpdate, fsLookup, h, Ne.symm h]
  | cons kv rest ih =>
      obtain ⟨k, v⟩ := kv
      by_cases hkp : k = p
      · subst hkp
        by_cases hq : q = k
        · subst hq; simp [fsUpdate, fsLookup]
        · simp [fsUpdate, fsLookup, hq, Ne.symm hq]
      · by_cases hkq : k = q
        · subst hkq
          simp [fsUpdate, fsLookup, hkp]
        · simp [fsUpdate, fsLookup, hkp, hkq, ih]

theorem mem_setInsert (l : List String) (u w : String) :
    w ∈ setInsert l u ↔ w ∈ l ∨ w = u := by
  simp only [setInsert]
  split
  · rename_i hu
    constructor
    · exact fun h => Or.inl h
    · rintro (h | rfl)
      · exact h
      · exact hu
  · simp [List.mem_append]

/-- The open-document/file invariant of the claim: every open URI has a
file on disk at its derived path whose content equals the last text the
client committed for that path. -/
def docInv (gw : Gateway) (committed : List (String × String)) : Prop :=
  ∀ uri ∈ gw.open_documents, ∃ t,
    fsLookup committed (pathOf uri) = some t ∧
    fsLookup gw.fs (pathOf uri) = some t

theorem c5_open_pres (gw : Gateway) (sup : SubprocessManager)
    (uri text : String) (a sa : Option Json) (e : Bool)
    (committed : List (String × String))
    (hinit : gw.initialized = true)
    (hinv : docInv gw committed)
    (hfile : fsLookup gw.fs (pathOf uri) = some text) :
    docInv (handle_message gw sup (didOpenMsg uri text) a sa e).gw
      (fsUpdate committed (pathOf uri) text) := by
  rw [didopen_message_gw gw sup uri text a sa e hinit]
  intro w hw
  simp only [] at hw
  rw [mem_setInsert] at hw
  simp only [fsLookup_fsUpdate]
  by_cases hpw : pathOf w = pathOf uri
  · exact ⟨text, by simp [hpw], by simp only [hpw]; exact hfile⟩
  · rcases hw with hw | rfl
    · obtain ⟨t, h1, h2⟩ := hinv w hw
      exact ⟨t, by simp [hpw, h1], h2⟩
    · exact absurd rfl hpw

theorem c5_change_pres (gw : Gateway) (sup : SubprocessManager)
    (uri text : String) (a sa : Option Json) (e : Bool)
    (committed : List (String × String))
    (hinit : gw.initialized = true)
    (hinv : docInv gw committed) :
    docInv (handle_message gw sup (didChangeFull uri text) a sa e).gw
      (fsUpdate committed (pathOf uri) text) := by
  rw [didchange_message_gw gw sup uri text a sa e hinit]
  rcases hl : fsLookup gw.fs (pathOf uri) with _ | c0
  · -- file missing: FileNotFoundError, session unchanged; no open uri can
    -- map to this path, else hinv would contradict hl
    intro w hw
    obtain ⟨t, h1, h2⟩ := hinv w hw
    by_cases hpw : pathOf w = pathOf uri
    · rw [hpw] at h2
      rw [hl] at h2
      exact absurd h2 (by simp)
    · exact ⟨t, by simp [fsLookup_fsUpdate, hpw, h1], h2⟩
  · intro w hw
    simp only [] at hw
    simp only [fsLookup_fsUpdate]
    by_cases hpw : pathOf w = pathOf uri
    · exact ⟨text, by simp [hpw], by simp [hpw]⟩
    · obtain ⟨t, h1, h2⟩ := hinv w hw
      exact ⟨t, by simp [hpw, h1], by simp [hpw, h2]⟩

theorem c5_close_pres (gw : Gateway) (sup : SubprocessManager)
    (uri : String) (a sa : Option Json) (e : Bool)
    (committed : List (String × String))
    (hinit : gw.initialized = true)
    (hinv : docInv gw committed) :
    docInv (handle_message gw sup (didCloseMsg uri) a sa e).gw committed := by
  obtain ⟨hopen, hfull⟩ := didclose_message_open gw sup uri a sa e hinit
  by_cases hempty : gw.open_documents.erase uri = []
  · intro w hw
    rw [hopen, hempty] at hw
    exact absurd hw (List.not_mem_nil w)
  · rw [hfull hempty]
    intro w hw
    simp only [] at hw
    exact hinv w (List.mem_of_mem_erase hw)

/-- C5 counterexample: `didOpen` (lines 211-214) only records the URI in
`open_documents`; it never creates or writes the file at the derived
path. Opening a URI whose file does not exist leaves the URI in the open
set with no file on disk, so the claimed invariant fails immediately. -/
theorem c5_counterexample_didopen_writes_no_file :
    "file:///workspaces/abc/src/A.java" ∈
      (handle_message gw_nofile sup_live
        (didOpenMsg "file:///workspaces/abc/src/A.java" "abc")
        none none true).gw.open_documents ∧
    fsLookup (handle_message gw_nofile sup_live
        (didOpenMsg "file:///workspaces/abc/src/A.java" "abc")
        none none true).gw.fs
      (pathOf "file:///workspaces/abc/src/A.java") = none := by
  constructor
  · decide
  · rfl

/-- C5 as amended: the handlers preserve the invariant, but `didOpen` does
not establish it — it holds after a `didOpen` only under the extra
hypothesis that the file at the derived path already contains exactly the
opened text. A full-replacement `didChange` rewrites the (existing) file
to the newly committed text, and `didClose` removes the URI; both
preserve the invariant unconditionally for an initialized session. -/
theorem c5_docinv_preserved_only_for_existing_files :
    (∀ (gw : Gateway) (sup : SubprocessManager) (uri text : String)
      (a sa : Option Json) (e : Bool) (committed : List (String × String)),
      gw.initialized = true → docInv gw committed →
      fsLookup gw.fs (pathOf uri) = some text →
      docInv (handle_message gw sup (didOpenMsg uri text) a sa e).gw
        (fsUpdate committed (pathOf uri) text)) ∧
    (∀ (gw : Gateway) (sup : SubprocessManager) (uri text : String)
      (a sa : Option Json) (e : Bool) (committed : List (String × String)),
      gw.initialized = true → docInv gw committed →
      docInv (handle_message gw sup (didChangeFull uri text) a sa e).gw
        (fsUpdate committed (pathOf uri) text)) ∧
    (∀ (gw : Gateway) (sup : SubprocessManager) (uri : String)
      (a sa : Option Json) (e : Bool) (committed : List (String × String)),
      gw.initialized = true → docInv gw committed →
      docInv (handle_message gw sup (didCloseMsg uri) a sa e).gw committed) :=
  ⟨fun gw sup uri text a sa e committed hinit hinv hfile =>
      c5_open_pres gw sup uri text a sa e committed hinit hinv hfile,
   fun gw sup uri text a sa e committed hinit hinv =>
      c5_change_pres gw sup uri text a sa e committed hinit hinv,
   fun gw sup uri a sa e committed hinit hinv =>
      c5_close_pres gw sup uri a sa e committed hinit hinv⟩

theorem c5_docinv_preserved_only_for_existing_files_witness :
    docInv (handle_message gw_live sup_live
        (didChangeFull "file:///workspaces/abc/src/Main.java" "class Z")
        none none true).gw
      (fsUpdate [("/workspaces/abc/src/Main.java", "public class Main")]
        (pathOf "file:///workspaces/abc/src/Main.java") "class Z") :=
  c5_docinv_preserved_only_for_existing_files.2.1 gw_live sup_live
    "file:///workspaces/abc/src/Main.java" "class Z" none none true
    [("/workspaces/abc/src/Main.java", "public class Main")] rfl
    (by
      intro w hw
      simp only [gw_live, List.mem_singleton] at hw
      subst hw
      exact ⟨"public class Main", rfl, rfl⟩)

/- ### C6: pending-map key collisions -/

/-- Lines 209 and 265: a forwarded client request is awaited under the
client's own id, passed to `receive` verbatim — no gateway counter is
involved. -/
def forward_register_id (message : Json) : Option Json := message.pyGet "id"

/-- Line 288: the id the gateway assigns to the `shutdown` request it
originates in `cleanup` is the session counter `next_id`. -/
def cleanup_request_id (gw : Gateway) : Nat := gw.next_id

/-- A registration collides when its key is already a pending key. -/
def register_collides (sup : SubprocessManager) (i : Json) : Bool :=
  sup.pending.contains i

/-- C6 counterexample: with the session at `next_id = 2` (the state right
after initialization consumed id 1), a forwarded client request carrying
the client-chosen id 2 registers key 2 and awaits it (line 76 via line
265). If a SIGTERM-scheduled `shutdown()` task (main.py lines 122-134)
runs `cleanup` during that 15-second await, the gateway-originated
shutdown request uses `cleanup_request_id = next_id = 2` and its
`receive` registers the same key: the dict assignment overwrites the
first caller's future while that caller is still pending. The claimed
enforcement by a monotonically increasing id does not exist for
forwarded requests, whose keys are chosen by the client. -/
theorem c6_counterexample_pending_key_collision :
    forward_register_id (completion_request 2) = some (Json.num 2) ∧
    cleanup_request_id gw_live = 2 ∧
    Json.num 2 ∈ (register_pending sup_live (Json.num 2)).pending ∧
    register_collides (register_pending sup_live (Json.num 2))
      (Json.num (cleanup_request_id gw_live)) = true := by
  refine ⟨rfl, rfl, by decide, by decide⟩

/-- C6 as amended: the ids the gateway itself assigns do come from the
monotonically increasing `next_id` counter — `cleanup` consumes
`next_id` and increments it, so two gateway-originated requests never
share an id — but forwarded client requests are registered under the
client's own id (third conjunct: `receive` registers exactly the id it
is handed), which the counter does not protect, so pending keys can
collide as in the counterexample. -/
theorem c6_amended_gateway_ids_monotonic :
    (∀ gw : Gateway, cleanup_request_id gw = gw.next_id) ∧
    (∀ (gw : Gateway) (sup : SubprocessManager) (sa : Option Json) (e : Bool),
      gw.subprocessSome = true → gw.initialized = true →
      (cleanup gw sup sa e).gw.next_id = gw.next_id + 1) ∧
    (∀ (sup : SubprocessManager) (i : Json) (a : Option Json),
      sup.running = true →
      ∃ rest, (sup.receive (some i) a).2.2 = Event.registerPending i :: rest) := by
  refine ⟨fun gw => rfl, ?_, ?_⟩
  · intro gw sup sa e h1 h2
    simp only [cleanup, h1, h2, and_self, if_true, rm_workspace]
    repeat' split
    all_goals rfl
  · intro sup i a h
    exact ⟨[Event.removePending i], by rw [receive_run sup i a h]⟩

theorem c6_amended_gateway_ids_monotonic_witness :
    (cleanup gw_live sup_live none true).gw.next_id = gw_live.next_id + 1 ∧
    ∃ rest, (sup_live.receive (some (Json.num 2)) none).2.2 =
      Event.registerPending (Json.num 2) :: rest :=
  ⟨c6_amended_gateway_ids_monotonic.2.1 gw_live sup_live none true rfl rfl,
   c6_amended_gateway_ids_monotonic.2.2 sup_live (Json.num 2) none rfl⟩
